import Mathlib

/-!
Verification of `bikeshare.py`, an interactive explorer for bikeshare trip
datasets.  Python strings are modelled as `String`/`List Char`, Python ints as
`ℤ`/`ℕ`, floats as `ℚ`, and fallible operations (such as tuple indexing that
can raise `IndexError`) as `Option`.  User interaction is modelled by passing
the strings the input calls would produce as explicit arguments.
-/

/-! ## Python string primitives (ASCII fragment used by the program) -/

/-- Single-quote character, written via its code point. -/
def SQ : Char := Char.ofNat 39

/-- Double-quote character, written via its code point. -/
def DQ : Char := Char.ofNat 34

/-- Backslash character, written via its code point. -/
def BSL : Char := Char.ofNat 92

/-- Python `s.lstrip().rstrip()` on a character list: whitespace removed from
both ends, interior whitespace kept. -/
def py_trim (l : List Char) : List Char :=
  ((l.dropWhile Char.isWhitespace).reverse.dropWhile Char.isWhitespace).reverse

/-- Python `s.lower()` restricted to ASCII, which covers every option string
the program uses. -/
def py_lower (l : List Char) : List Char := l.map Char.toLower

/-- Python `repr` of one character inside a quoted string literal: backslashes
and the active quote character are escaped; other printable characters stand
for themselves. -/
def py_repr_char (quote : Char) (c : Char) : List Char :=
  if c = BSL then [BSL, BSL]
  else if c = quote then [BSL, quote]
  else [c]

/-- Python `repr` of a printable string: single quotes are preferred, double
quotes are used when the string contains a single quote but no double quote. -/
def py_repr (s : String) : List Char :=
  let quote := if s.data.contains SQ && !(s.data.contains DQ) then DQ else SQ
  quote :: (s.data.map (py_repr_char quote)).flatten ++ [quote]

/-- Python `str` of a one-element list of strings, as in `str(matched)` at
`bikeshare.py:164` once exactly one match remains. -/
def py_str_of_list1 (x : String) : List Char := '[' :: py_repr x ++ [']']

/-- Python `s.strip(chars)`: every leading and trailing character belonging to
`chars` is removed. -/
def py_strip (l : List Char) (chars : List Char) : List Char :=
  ((l.dropWhile (fun c => chars.contains c)).reverse.dropWhile
      (fun c => chars.contains c)).reverse

/-- Characters of the strip set literal at `bikeshare.py:164`: a single quote
and the two square brackets. -/
def STRIP_SET : List Char := [SQ, '[', ']']

/-! ## Module constants (`bikeshare.py:57-81`) -/

/-- MONTHS tuple from `bikeshare.py:68-71`.  The first entry is a dummy so that
1-based month numbers index directly; July through December are commented out
in the source, leaving seven entries. -/
def MONTHS : List String :=
  ["Dummy", "January", "February", "March", "April", "May", "June"]

/-- WEEKDAYS tuple from `bikeshare.py:75-77`, Sunday first (index 0). -/
def WEEKDAYS : List String :=
  ["Sunday", "Monday", "Tuesday", "Wednesday", "Thursday", "Friday", "Saturday"]

/-! ## `clean_input` (`bikeshare.py:84-99`) -/

/-- Outcome of one call to Python `input`: either a line of text, or a
`KeyboardInterrupt` raised during the read. -/
inductive InputResult
  | answered (text : String)
  | interrupted
deriving DecidableEq

/-- Model of `clean_input`: returns the user text, or the literal string
`"Quit"` when the read was interrupted. -/
def clean_input : InputResult → String
  | InputResult.answered text => text
  | InputResult.interrupted => "Quit"

/-! ## `match_start_string` (`bikeshare.py:114-132`) -/

/-- Model of `match_start_string`: the substring is trimmed and lowercased,
then every option whose lowercased prefix of the same length equals it is kept,
in list order and with original casing. -/
def match_start_string (list_to_search : List String) (substring : String) :
    List String :=
  let clean_substring := py_lower (py_trim substring.data)
  list_to_search.filter
    (fun item => clean_substring == py_lower (item.data.take clean_substring.length))

/-! ## `unique_selection` (`bikeshare.py:135-164`) -/

/-- Outcome of one round of the `unique_selection` loop body
(`bikeshare.py:151-162`): no match or several matches make the loop re-prompt,
a single match ends the loop. -/
inductive Resolution
  | noMatch
  | ambiguous (hits : List String)
  | selected (choice : String)
deriving DecidableEq

/-- One round of the `unique_selection` loop given the string the prompt
produced: classify the matches of `match_start_string`. -/
def resolve_step (option_list : List String) (selection : String) : Resolution :=
  match match_start_string option_list selection with
  | [] => Resolution.noMatch
  | [m] => Resolution.selected m
  | ms => Resolution.ambiguous ms

/-- Return conversion at `bikeshare.py:164`: `str(matched).strip("'[]")` applied
to the one-element match list. -/
def unique_selection_return (matched : String) : String :=
  String.mk (py_strip (py_str_of_list1 matched) STRIP_SET)

/-- Result of `unique_selection` for one prompt answer: `some` of the returned
string when the answer resolves uniquely, `none` when the loop would re-prompt. -/
def unique_selection_result (option_list : List String) (selection : String) :
    Option String :=
  match match_start_string option_list selection with
  | [m] => some (unique_selection_return m)
  | _ => none

/-! ## `load_data` month-name derivation (`bikeshare.py:365-371`) -/

/-- Lookup `MONTHS[int(m)]`; `none` models the `IndexError` Python raises when
the index is out of range. -/
def month_name (m : ℕ) : Option String := MONTHS[m]?

/-- The list comprehension `[MONTHS[int(m)] for m in df['Start Time'].dt.month]`
at `bikeshare.py:367`: deriving the month-name column fails as soon as one
lookup is out of range. -/
def derive_month_column : List ℕ → Option (List String)
  | [] => some []
  | m :: ms =>
    match month_name m, derive_month_column ms with
    | some name, some rest => some (name :: rest)
    | _, _ => none

/-! ## `get_filters` (`bikeshare.py:290-343`) -/

/-- Model of `get_filters`.  The three string arguments are the values the
three `unique_selection` prompts would return (city, month, day); the branch
structure mirrors `bikeshare.py:315-343`. -/
def get_filters (city_selection month_selection day_selection : String)
    (all_flag : Bool) : String × String × String :=
  let city := city_selection
  if city == "Quit" then (city, "Quit", "Quit")
  else if all_flag then (city, "All", "All")
  else
    let month := month_selection
    if month == "Quit" then (city, month, "Quit")
    else (city, month, day_selection)

/-! ## Raw-data pagination (`bikeshare.py:629-638`) -/

/-- Check at `bikeshare.py:637`: `next_page.lower() == 'q'`. -/
def raw_page_wants_quit (next_page : String) : Bool :=
  py_lower next_page.data == "q".data

/-- Outcome of running the pagination loop against a finite list of prompt
answers: `done` when the row index passed the row count, `quit` when an answer
lowercases to `"q"`, `pending` when the answers ran out with the loop still
going. -/
inductive RawOutcome
  | done
  | quit
  | pending
deriving DecidableEq

/-- The raw-data display loop of `bikeshare.py:629-638`: while `i` is below the
row count, a page is printed, `i` grows by `abs(pagesize)`, and one answer is
consumed; an answer lowercasing to `"q"` breaks out. -/
def raw_data_loop (pagesize : ℤ) (row_count : ℕ) : ℕ → List String → RawOutcome
  | i, [] => if i < row_count then RawOutcome.pending else RawOutcome.done
  | i, r :: rest =>
    if i < row_count then
      if raw_page_wants_quit r then RawOutcome.quit
      else raw_data_loop pagesize row_count (i + pagesize.natAbs) rest
    else RawOutcome.done

/-! ## Session caching (`bikeshare.py:592-646`) -/

/-- State of `previous_city` in `main_loop`: the initial value at
`bikeshare.py:594` is the tuple `('No previous city',)`, which no selected city
string ever equals; afterwards it is the city of the last completed round. -/
inductive PrevCity
  | sentinel
  | loaded (name : String)
deriving DecidableEq

/-- The comparison `city == previous_city` at `bikeshare.py:605`; comparing a
string with the initial tuple is always false in Python. -/
def prev_city_matches : PrevCity → String → Bool
  | PrevCity.sentinel, _ => false
  | PrevCity.loaded c, s => c == s

/-- Guard at `bikeshare.py:605`: `load_data` runs unless the selected city
equals the previous one and the `--all` flag is set. -/
def load_invoked (previous : PrevCity) (city : String) (all_flag : Bool) : Bool :=
  !(prev_city_matches previous city && all_flag)

/-- Load decisions over successive rounds of `main_loop`: each round selects a
city, decides whether `load_data` runs, and records the city as the previous
one (`bikeshare.py:646`). -/
def session_loads (all_flag : Bool) : PrevCity → List String → List Bool
  | _, [] => []
  | previous, c :: cs =>
    load_invoked previous c all_flag :: session_loads all_flag (PrevCity.loaded c) cs

/-! ## `display_duration` (`bikeshare.py:249-287`) -/

/-- Python `round` on a rational value: nearest integer, ties to even. -/
def py_round (q : ℚ) : ℤ :=
  if q - ⌊q⌋ < 1/2 then ⌊q⌋
  else if 1/2 < q - ⌊q⌋ then ⌊q⌋ + 1
  else if ⌊q⌋ % 2 = 0 then ⌊q⌋ else ⌊q⌋ + 1

/-- Seconds component of the `divmod` chain at `bikeshare.py:264-266`. -/
def duration_seconds (t : ℚ) : ℤ := (py_round t).emod 60

/-- Minutes component of the `divmod` chain at `bikeshare.py:264-266`. -/
def duration_minutes (t : ℚ) : ℤ := ((py_round t).ediv 60).emod 60

/-- Hours component of the `divmod` chain at `bikeshare.py:264-266`. -/
def duration_hours (t : ℚ) : ℤ := (((py_round t).ediv 60).ediv 60).emod 24

/-- Days component of the `divmod` chain at `bikeshare.py:264-266`. -/
def duration_days (t : ℚ) : ℤ := (((py_round t).ediv 60).ediv 60).ediv 24

/-- Fragment `'{0} days, '` of the print string: included exactly when the
days value is positive (`bikeshare.py:280-281`). -/
def frag_days (t : ℚ) : List Char :=
  if 0 < duration_days t then (toString (duration_days t)).data ++ (" days, ").data
  else []

/-- Fragment `'{1} hours, '` of the print string. -/
def frag_hours (t : ℚ) : List Char :=
  if 0 < duration_hours t then (toString (duration_hours t)).data ++ (" hours, ").data
  else []

/-- Fragment `'{2} minutes, '` of the print string. -/
def frag_minutes (t : ℚ) : List Char :=
  if 0 < duration_minutes t then
    (toString (duration_minutes t)).data ++ (" minutes, ").data
  else []

/-- Fragment `'{3} seconds '` of the print string. -/
def frag_seconds (t : ℚ) : List Char :=
  if 0 < duration_seconds t then
    (toString (duration_seconds t)).data ++ (" seconds ").data
  else []

/-- The unit part of the printed duration: concatenation of the fragments of
the nonzero units, in days/hours/minutes/seconds order (`bikeshare.py:280-281`). -/
def render_units (t : ℚ) : String :=
  String.mk (frag_days t ++ frag_hours t ++ frag_minutes t ++ frag_seconds t)

/-- Unit names tuple at `bikeshare.py:259`. -/
def DURATION_NAMES : List String := ["days", "hours", "minutes", "seconds"]

/-- Index of the dominant unit (`bikeshare.py:274-275`): minimum over
`[index if value > 0 else 3]`, so the highest nonzero unit, defaulting to
seconds. -/
def top_unit_index (t : ℚ) : ℕ :=
  min (if 0 < duration_days t then 0 else 3)
    (min (if 0 < duration_hours t then 1 else 3)
      (min (if 0 < duration_minutes t then 2 else 3)
        (if 0 < duration_seconds t then 3 else 3)))

/-- Name of the dominant unit used by the exact-value suffix
`(= {4:.2f} {5})`. -/
def top_unit_name (t : ℚ) : String := DURATION_NAMES.getD (top_unit_index t) ""

/-! ## `display_most_common` (`bikeshare.py:220-246`) -/

/-- Maximum frequency of any element of the column, the quantity pandas
`Series.mode` maximises. -/
def max_count (l : List String) : ℕ := (l.map (fun v => l.count v)).foldr max 0

/-- Result list of `df[column].mode().tolist()` at `bikeshare.py:238`.  pandas
is an external dependency; per its documentation `mode` returns every value
whose frequency equals the maximum (the display order is not modelled). -/
def pd_mode (l : List String) : List String :=
  l.dedup.filter (fun v => l.count v == max_count l)

/-- The comma-separated line printed by `display_most_common` in its default
mode (`bikeshare.py:246`): every element of the mode list is rendered. -/
def display_most_common (column : List String) : String :=
  String.intercalate ", " (pd_mode column)

/-! ## Helper lemmas -/

/-- Rounding an integer-valued rational returns that integer. -/
theorem py_round_intCast (z : ℤ) : py_round (z : ℚ) = z := by
  simp [py_round]

/-- A conditional fragment built from a value and a nonempty unit suffix is
nonempty exactly when the value is positive. -/
theorem frag_if_ne_nil (v : ℤ) (u : List Char) (hu : u ≠ []) :
    ((if 0 < v then (toString v).data ++ u else []) ≠ []) ↔ 0 < v := by
  by_cases hv : 0 < v
  · simp [hv, List.append_eq_nil, hu]
  · simp [hv]

/-! ## Claims -/

/-- C1 (counterexample): month number 7 lies in the claimed range 1..12, yet
the `MONTHS` lookup is out of range there (the tuple has only seven entries),
so deriving the month column of a row whose start month is July fails. -/
theorem c1_month_lookup_counterexample :
    1 ≤ 7 ∧ 7 ≤ 12 ∧ month_name 7 = none ∧ derive_month_column [7] = none := by
  decide

/-- C1 (amended): for every loaded row whose start-time month number is
between 1 and 6 — the months actually present in the `MONTHS` tuple, whose
July..December entries are commented out — the lookup `MONTHS[int(m)]` is in
bounds and the month-name column derivation succeeds. -/
theorem c1_month_lookup_amended (ms : List ℕ) (h : ∀ m ∈ ms, 1 ≤ m ∧ m ≤ 6) :
    (derive_month_column ms).isSome = true := by
  induction ms with
  | nil => rfl
  | cons m rest ih =>
    have hm := h m (by simp)
    have hrest : ∀ x ∈ rest, 1 ≤ x ∧ x ≤ 6 := fun x hx => h x (by simp [hx])
    have hname : ∃ nm, month_name m = some nm := by
      have hlt : m < MONTHS.length := by
        simp only [MONTHS, List.length]
        omega
      exact ⟨MONTHS[m], List.getElem?_eq_getElem hlt⟩
    obtain ⟨nm, hn⟩ := hname
    obtain ⟨col, hc⟩ := Option.isSome_iff_exists.mp (ih hrest)
    simp [derive_month_column, hn, hc]

/-- C1 (witness): the amended theorem applied to the concrete month column
`[1, 6]`. -/
theorem c1_month_lookup_witness :
    (∀ m ∈ [1, 6], 1 ≤ m ∧ m ≤ 6) ∧ (derive_month_column [1, 6]).isSome = true :=
  ⟨by decide, c1_month_lookup_amended [1, 6] (by decide)⟩

/-- C2: with option list `["[Test]"]` and empty input, exactly one entry
matches, yet `unique_selection` returns `"Test"` — the return conversion
`str(matched).strip("'[]")` removes the leading and trailing brackets of the
entry, contradicting both the claim and the docstring promise to return the
uniquely matched option. -/
theorem c2_unique_selection_mangles_option :
    unique_selection_result ["[Test]"] "" = some "Test"
      ∧ ("[Test]" : String) ≠ "Test" := by
  decide

/-- C3: reloading is skipped exactly when the selected city equals the
previously loaded one and the `--all` flag is set; the sentinel previous value
never matches, a repeated city with the flag set gives a cache hit on the
second round, and a different city always reloads. -/
theorem c3_cache_skip_exactly (previous : PrevCity) (city : String)
    (all_flag : Bool) :
    (load_invoked previous city all_flag = false
      ↔ prev_city_matches previous city = true ∧ all_flag = true)
    ∧ session_loads true PrevCity.sentinel ["D1", "D1"] = [true, false]
    ∧ (∀ c2 f, c2 ≠ "D1" → session_loads f (PrevCity.loaded "D1") [c2] = [true]) := by
  refine ⟨?_, by decide, ?_⟩
  · unfold load_invoked
    cases all_flag <;> cases h : prev_city_matches previous city <;> simp
  · intro c2 f hne
    have hbeq : ("D1" == c2) = false := beq_eq_false_iff_ne.mpr (Ne.symm hne)
    simp [session_loads, load_invoked, prev_city_matches, hbeq]

/-- C3 (witness): the skip rule instantiated concretely — a repeated city with
the flag set skips the load, and a different city reloads. -/
theorem c3_cache_skip_witness :
    load_invoked (PrevCity.loaded "D1") "D1" true = false
      ∧ session_loads false (PrevCity.loaded "D1") ["D2"] = [true] :=
  ⟨(c3_cache_skip_exactly (PrevCity.loaded "D1") "D1" true).1.mpr ⟨by decide, rfl⟩,
    (c3_cache_skip_exactly (PrevCity.loaded "D1") "D1" true).2.2 "D2" false (by decide)⟩

/-- C4: for every nonnegative duration, the day/hour/minute/second
decomposition of `display_duration` reconstructs the rounded input exactly:
days·86400 + hours·3600 + minutes·60 + seconds = round(total_seconds). -/
theorem c4_duration_round_trip (t : ℚ) (h : 0 ≤ t) :
    duration_days t * 86400 + duration_hours t * 3600 + duration_minutes t * 60
      + duration_seconds t = py_round t := by
  unfold duration_days duration_hours duration_minutes duration_seconds
  generalize py_round t = n
  have h1 : 60 * (n.ediv 60) + n.emod 60 = n := Int.ediv_add_emod n 60
  have h2 : 60 * ((n.ediv 60).ediv 60) + (n.ediv 60).emod 60 = n.ediv 60 :=
    Int.ediv_add_emod (n.ediv 60) 60
  have h3 : 24 * (((n.ediv 60).ediv 60).ediv 24) + ((n.ediv 60).ediv 60).emod 24
      = (n.ediv 60).ediv 60 := Int.ediv_add_emod ((n.ediv 60).ediv 60) 24
  omega

/-- C4 (witness): the round trip at the concrete duration 90 seconds. -/
theorem c4_duration_round_trip_witness :
    0 ≤ (90 : ℚ)
      ∧ duration_days 90 * 86400 + duration_hours 90 * 3600
          + duration_minutes 90 * 60 + duration_seconds 90 = py_round 90 :=
  ⟨by norm_num, c4_duration_round_trip 90 (by norm_num)⟩

/-- C5 (counterexample): an input of exactly 60 seconds renders its unit part
as `"1 minutes, "` — the zero seconds component is omitted, not shown as
`0 seconds`, refuting the claimed rendering `1 minute 0 seconds`. -/
theorem c5_sixty_seconds_counterexample :
    render_units (60 : ℚ) = "1 minutes, " ∧ frag_seconds (60 : ℚ) = [] := by
  have h60 : py_round (60 : ℚ) = 60 := by
    rw [show (60:ℚ) = ((60:ℤ):ℚ) by norm_num, py_round_intCast]
  constructor
  · unfold render_units frag_days frag_hours frag_minutes frag_seconds
    unfold duration_days duration_hours duration_minutes duration_seconds
    rw [h60]
    decide
  · unfold frag_seconds duration_seconds
    rw [h60]
    decide

/-- C5 (amended): the rendering shows exactly the units whose computed value is
nonzero — including the seconds component, which is omitted like any other
zero unit; when every unit is zero no unit fragment is printed and the exact
value is reported in seconds. -/
theorem c5_units_rendering_amended (t : ℚ) (h : 0 ≤ t) :
    (frag_days t ≠ [] ↔ 0 < duration_days t)
    ∧ (frag_hours t ≠ [] ↔ 0 < duration_hours t)
    ∧ (frag_minutes t ≠ [] ↔ 0 < duration_minutes t)
    ∧ (frag_seconds t ≠ [] ↔ 0 < duration_seconds t)
    ∧ (duration_days t = 0 ∧ duration_hours t = 0 ∧ duration_minutes t = 0
          ∧ duration_seconds t = 0 →
        render_units t = "" ∧ top_unit_name t = "seconds") := by
  refine ⟨?_, ?_, ?_, ?_, ?_⟩
  · exact frag_if_ne_nil _ _ (by decide)
  · exact frag_if_ne_nil _ _ (by decide)
  · exact frag_if_ne_nil _ _ (by decide)
  · exact frag_if_ne_nil _ _ (by decide)
  · rintro ⟨hd, hh, hm, hs⟩
    constructor
    · simp [render_units, frag_days, frag_hours, frag_minutes, frag_seconds,
        hd, hh, hm, hs]
    · simp [top_unit_name, top_unit_index, hd, hh, hm, hs]
      rfl

/-- C5 (witness): the amended theorem applied at the duration 0, whose units
are all zero, giving the seconds dominant unit. -/
theorem c5_units_rendering_witness : 0 ≤ (0 : ℚ) ∧ top_unit_name 0 = "seconds" := by
  have h0 : py_round (0 : ℚ) = 0 := by
    rw [show (0:ℚ) = ((0:ℤ):ℚ) by norm_num, py_round_intCast]
  have hd : duration_days 0 = 0 := by
    unfold duration_days
    rw [h0]
    decide
  have hh : duration_hours 0 = 0 := by
    unfold duration_hours
    rw [h0]
    decide
  have hm : duration_minutes 0 = 0 := by
    unfold duration_minutes
    rw [h0]
    decide
  have hs : duration_seconds 0 = 0 := by
    unfold duration_seconds
    rw [h0]
    decide
  exact ⟨by norm_num,
    ((c5_units_rendering_amended 0 (by norm_num)).2.2.2.2 ⟨hd, hh, hm, hs⟩).2⟩

/-- C6: the mode list reported for a column contains a value exactly when that
value occurs in the column with the maximum frequency — every tied value is
included, never a strict subset. -/
theorem c6_mode_contains_all_ties (l : List String) (v : String) :
    v ∈ pd_mode l ↔ v ∈ l ∧ l.count v = max_count l := by
  simp [pd_mode, List.mem_filter, List.mem_dedup]

/-- C6 (witness): in the column `["a", "b", "a"]` the maximal-frequency value
`"a"` is reported. -/
theorem c6_mode_witness : "a" ∈ pd_mode ["a", "b", "a"] :=
  (c6_mode_contains_all_ties ["a", "b", "a"] "a").mpr (by decide)

/-- C7: whenever `get_filters` returns city `"Quit"`, the month and day it
returns are `"Quit"` as well, and whenever the returned month is `"Quit"` so is
the day — regardless of what the month and day prompts would have produced. -/
theorem c7_quit_propagates (cs ms ds : String) (flag : Bool) :
    ((get_filters cs ms ds flag).1 = "Quit" →
        (get_filters cs ms ds flag).2.1 = "Quit"
          ∧ (get_filters cs ms ds flag).2.2 = "Quit")
    ∧ ((get_filters cs ms ds flag).2.1 = "Quit" →
        (get_filters cs ms ds flag).2.2 = "Quit") := by
  unfold get_filters
  by_cases h1 : cs == "Quit" <;> by_cases h2 : flag = true <;> by_cases h3 : ms == "Quit" <;>
    simp_all

/-- C7 (witness): quitting at the city prompt forces month and day to
`"Quit"`. -/
theorem c7_quit_propagates_witness :
    (get_filters "Quit" "January" "Monday" false).2.1 = "Quit"
      ∧ (get_filters "Quit" "January" "Monday" false).2.2 = "Quit" :=
  (c7_quit_propagates "Quit" "January" "Monday" false).1 (by decide)

/-- C8: an input that trims to the empty string matches every option; the
resolver round is ambiguous whenever the option list has more than one entry
and selects the sole entry when it has exactly one. -/
theorem c8_empty_input_matches_all (option_list : List String) (s : String)
    (h : py_trim s.data = []) :
    match_start_string option_list s = option_list
    ∧ (2 ≤ option_list.length →
        resolve_step option_list s = Resolution.ambiguous option_list)
    ∧ (∀ x, option_list = [x] → resolve_step option_list s = Resolution.selected x) := by
  have hm : match_start_string option_list s = option_list := by
    unfold match_start_string
    rw [h]
    simp [py_lower]
  refine ⟨hm, ?_, ?_⟩
  · intro hlen
    unfold resolve_step
    rw [hm]
    rcases option_list with _ | ⟨a, _ | ⟨b, rest⟩⟩
    · simp at hlen
    · simp at hlen
    · rfl
  · intro x hx
    unfold resolve_step
    rw [hm, hx]

/-- C8 (witness): a whitespace-only input on a two-entry option list resolves
to ambiguous over the whole list. -/
theorem c8_empty_input_witness :
    py_trim "  ".data = []
      ∧ resolve_step ["Alpha", "Beta"] "  " = Resolution.ambiguous ["Alpha", "Beta"] :=
  ⟨by decide,
    (c8_empty_input_matches_all ["Alpha", "Beta"] "  " (by decide)).2.1 (by decide)⟩

/-- C9: an interrupt at the page boundary is converted to the string `"Quit"`,
whose lowercase form is not `"q"`, so the pagination loop does not stop — it
continues to the next page (while a typed `"q"` does stop it).  This
contradicts the specified conversion of cancellation into an early stop. -/
theorem c9_interrupt_continues_pagination :
    clean_input InputResult.interrupted = "Quit"
    ∧ raw_page_wants_quit "Quit" = false
    ∧ raw_data_loop 10 30 0 [clean_input InputResult.interrupted] = RawOutcome.pending
    ∧ raw_data_loop 10 30 0 [clean_input (InputResult.answered "q")] = RawOutcome.quit := by
  decide

/-- C10: with page size 0 the pagination loop never advances its row index, so
over a nonempty dataset it never reaches the `done` exit; it terminates exactly
when some answer at a page boundary lowercases to `"q"`. -/
theorem c10_pagesize_zero_never_done (row_count : ℕ) (rs : List String) :
    ∀ i : ℕ, i < row_count →
      raw_data_loop 0 row_count i rs ≠ RawOutcome.done
      ∧ (raw_data_loop 0 row_count i rs = RawOutcome.quit
          ↔ ∃ r ∈ rs, raw_page_wants_quit r = true) := by
  induction rs with
  | nil =>
    intro i h
    simp [raw_data_loop, h]
  | cons r rest ih =>
    intro i h
    by_cases hq : raw_page_wants_quit r = true
    · simp [raw_data_loop, h, hq]
    · have hrec := ih i h
      simp only [raw_data_loop, if_pos h, hq, Bool.false_eq_true, ite_false]
      simp only [Int.natAbs_zero, Nat.add_zero] at *
      constructor
      · exact hrec.1
      · rw [hrec.2]
        simp [hq]

/-- C10 (witness): with page size 0 and one data row, the loop quits on a
`"q"` answer and never exits through the row index. -/
theorem c10_pagesize_zero_witness :
    0 < 1 ∧ raw_data_loop 0 1 0 ["q"] ≠ RawOutcome.done :=
  ⟨by decide, (c10_pagesize_zero_never_done 1 ["q"] 0 (by decide)).1⟩
